import Mathlib

/-!
# Verification of the batch analysis engine

Shallow embedding of the core of `csharp-code-reviewer-api`:
`app/core/batch_analyzer.py` (BatchAnalyzer) and
`app/core/api_client.py` (APIClient.analyze_code), together with proofs
about their retry, skip, cancellation and tally behaviour.

Modelling conventions:
* File I/O, the LLM transport and the collaborator calls are modelled as
  explicit behaviour parameters (`ReadOutcome`, `StageOutcome` per attempt,
  transport functions), since the embedding must cover every behaviour of
  the environment.
* Python exceptions become explicit outcome constructors; `time.sleep`
  calls and collaborator invocations are recorded in an event trace so
  that call-count and timing-order claims are statable.
* Wall-clock fields (`analysis_time`, `total_time`, `start_time`,
  `end_time`) are real-time measurements and are omitted from the
  embedded records; no claim under analysis depends on them.
-/

namespace CodeReviewer

/-! ## String helpers

Python's `sub in s` substring test and `str.strip`, used by
`batch_analyzer.py` lines 130 and 165. -/

/-- Test whether `sub` is a prefix of `l` (character lists). -/
def hasPfx : List Char → List Char → Bool
  | [], _ => true
  | _ :: _, [] => false
  | a :: as, b :: bs => a == b && hasPfx as bs

/-- Test whether `sub` occurs as a contiguous sublist of `l`. -/
def listContains (sub : List Char) : List Char → Bool
  | [] => sub.isEmpty
  | c :: t => hasPfx sub (c :: t) || listContains sub t

/-- Python's `sub in s` on strings. -/
def strContains (s sub : String) : Bool := listContains sub.data s.data

/-- Python's `str.strip()` (no argument): remove leading and trailing
whitespace. -/
def pyStrip (s : String) : String :=
  ⟨((s.data.dropWhile Char.isWhitespace).reverse.dropWhile Char.isWhitespace).reverse⟩

/-- The skip marker substring checked by `analyze_files` (line 130). -/
def skipMarker : String := "스킵"

/-! ## Result records (`batch_analyzer.py` lines 19–43) -/

/-- The `FileAnalysisResult` dataclass (wall-clock `analysis_time` omitted). -/
structure FileAnalysisResult where
  file_path : String
  file_name : String
  success : Bool
  original_code : String := ""
  improved_code : String := ""
  report_markdown : String := ""
  error_message : String := ""
  retry_count : Nat := 0
deriving DecidableEq, Repr

/-- The `BatchAnalysisResult` dataclass (wall-clock fields omitted). -/
structure BatchAnalysisResult where
  total_files : Nat
  success_count : Nat
  failure_count : Nat
  skipped_count : Nat
  results : List FileAnalysisResult
deriving DecidableEq, Repr

/-! ## Environment behaviour -/

/-- Outcome of `open(file_path).read()` in `_analyze_single_file`:
either the raw content, a `UnicodeDecodeError`, or any other exception
(carrying `str(e)`). -/
inductive ReadOutcome where
  | ok (content : String)
  | unicodeError
  | otherError (msg : String)
deriving DecidableEq, Repr

/-- Outcome of one collaborator call inside the retry-loop `try` block:
a returned string, a raised `APIClientError` (carrying `str(e)`), or any
other raised exception. -/
inductive StageOutcome where
  | ok (s : String)
  | raiseApi (msg : String)
  | raiseOther (msg : String)
deriving DecidableEq, Repr

/-- Behaviour of the three collaborator calls of one retry-loop attempt:
`prompt_builder.build_review_prompt`, the `api_client.analyze_code`
streaming call fully drained (`clientStage.ok s` is the concatenation of
the yielded tokens), and `report_generator.generate_report`. -/
structure AttemptBehavior where
  promptStage : StageOutcome
  clientStage : StageOutcome
  reportStage : StageOutcome
deriving DecidableEq, Repr

/-- Observable side effects of the batch analyzer, recorded in order. -/
inductive Event where
  | promptCall
  | clientCall
  | reportCall
  | sleepFor (secs : Nat)
  | progressUpdate (total : Nat) (name : String)
deriving DecidableEq, Repr

/-! ## Single-item procedure (`_analyze_single_file`, lines 149–270) -/

/-- The constant `MAX_RETRIES = 3` (line 57). -/
def MAX_RETRIES : Nat := 3

/-- Result of the `try` block of one retry-loop attempt. -/
inductive TryResult where
  | ok (improved report : String)
  | exApi (msg : String)
  | exOther (msg : String)
deriving DecidableEq, Repr

/-- Run the `try` body of one attempt (lines 199–238): build the prompt,
call and drain the client stream, build the report; an exception at a
stage aborts the attempt. Returns the events emitted and the outcome. -/
def runAttempt (b : AttemptBehavior) : List Event × TryResult :=
  match b.promptStage with
  | .raiseApi m => ([.promptCall], .exApi m)
  | .raiseOther m => ([.promptCall], .exOther m)
  | .ok _prompt =>
    match b.clientStage with
    | .raiseApi m => ([.promptCall, .clientCall], .exApi m)
    | .raiseOther m => ([.promptCall, .clientCall], .exOther m)
    | .ok improved =>
      match b.reportStage with
      | .raiseApi m => ([.promptCall, .clientCall, .reportCall], .exApi m)
      | .raiseOther m => ([.promptCall, .clientCall, .reportCall], .exOther m)
      | .ok report => ([.promptCall, .clientCall, .reportCall], .ok improved report)

/-- The retry-exhaustion error message (line 267):
`f"LLM 분석 실패 ({self.MAX_RETRIES}회 재시도): {str(last_error)}"`. -/
def exhaustedMsg (lastError : String) : String :=
  "LLM 분석 실패 (" ++ toString MAX_RETRIES ++ "회 재시도): " ++ lastError

/-- The retry loop of `_analyze_single_file` (lines 195–270), iterating
over the remaining attempt indices. `retry_count` and `last_error` are
the loop-carried variables; on an exception the loop sleeps 1 second
when attempts remain (line 246). -/
def retryLoop (beh : Nat → AttemptBehavior) (file_path file_name code : String) :
    List Nat → Nat → String → List Event × FileAnalysisResult
  | [], retry_count, last_error =>
    ([], { file_path := file_path, file_name := file_name, success := false,
           original_code := code,
           error_message := exhaustedMsg last_error,
           retry_count := retry_count })
  | a :: rest, retry_count, _last_error =>
    let (ev, tr) := runAttempt (beh a)
    match tr with
    | .ok improved report =>
      (ev, { file_path := file_path, file_name := file_name, success := true,
             original_code := code, improved_code := improved,
             report_markdown := report, retry_count := retry_count })
    | .exApi m =>
      let sleeps : List Event := if rest.isEmpty then [] else [.sleepFor 1]
      let (ev2, r) := retryLoop beh file_path file_name code rest (retry_count + 1) m
      (ev ++ sleeps ++ ev2, r)
    | .exOther m =>
      let sleeps : List Event := if rest.isEmpty then [] else [.sleepFor 1]
      let (ev2, r) := retryLoop beh file_path file_name code rest (retry_count + 1) m
      (ev ++ sleeps ++ ev2, r)

/-- The function `_analyze_single_file` (lines 149–270): read the file, short-circuit
the skip cases, otherwise enter the retry loop. -/
def analyzeSingleFile (read : ReadOutcome) (beh : Nat → AttemptBehavior)
    (file_path file_name : String) : List Event × FileAnalysisResult :=
  match read with
  | .ok content =>
    let original_code := pyStrip content
    if original_code = "" then
      ([], { file_path := file_path, file_name := file_name, success := false,
             error_message := "빈 파일 (스킵)" })
    else
      retryLoop beh file_path file_name original_code (List.range MAX_RETRIES) 0 ""
  | .unicodeError =>
    ([], { file_path := file_path, file_name := file_name, success := false,
           error_message := "UTF-8 인코딩 오류 (스킵)" })
  | .otherError msg =>
    ([], { file_path := file_path, file_name := file_name, success := false,
           error_message := "파일 읽기 실패: " ++ msg ++ " (스킵)" })

/-! ## Batch run (`analyze_files`, lines 88–147) -/

/-- Python's `Path(file_path).name` (line 119): the last `/`-separated component. -/
def pathName (p : String) : String := (p.splitOn "/").getLastD p

/-- The per-file environment of a run: what reading each path yields and
how the collaborator pipeline behaves on each retry attempt for it. -/
structure BatchEnv where
  read : String → ReadOutcome
  beh : String → Nat → AttemptBehavior

/-- The check `if is_cancelled_callback and is_cancelled_callback():` (line 114).
The callback is invoked exactly once per loop iteration, so a stateful
callback is modelled as a function of the iteration index. -/
def cancelCheck (cancel : Option (Nat → Bool)) (i : Nat) : Bool :=
  match cancel with
  | some c => c i
  | none => false

/-- The `for i, file_path in enumerate(file_paths)` loop body of
`analyze_files` (lines 112–125): check cancellation, emit progress when a
callback is supplied, analyze the file, append the result. Events are
tagged with the item index they belong to. -/
def batchLoop (env : BatchEnv) (total : Nat) (hasProgress : Bool)
    (cancel : Option (Nat → Bool)) :
    Nat → List String → List (Nat × Event) × List FileAnalysisResult
  | _, [] => ([], [])
  | i, p :: rest =>
    if cancelCheck cancel i then ([], [])
    else
      let name := pathName p
      let pev : List (Nat × Event) :=
        if hasProgress then [(i, .progressUpdate total name)] else []
      let (ev, r) := analyzeSingleFile (env.read p) (env.beh p) p name
      let (tr, rs) := batchLoop env total hasProgress cancel (i + 1) rest
      (pev ++ ev.map (fun e => (i, e)) ++ tr, r :: rs)

/-- The tally of lines 127–133, applied to each appended result:
`success` increments the success count, otherwise a truthy
`error_message` containing `"스킵"` increments the skipped count,
otherwise the failure count. Returns
(success_count, failure_count, skipped_count). -/
def countResults : List FileAnalysisResult → Nat × Nat × Nat
  | [] => (0, 0, 0)
  | r :: rs =>
    let (s, f, k) := countResults rs
    if r.success then (s + 1, f, k)
    else if !(r.error_message == "") && strContains r.error_message skipMarker then
      (s, f, k + 1)
    else (s, f + 1, k)

/-- The function `analyze_files` (lines 88–147): run the loop, tally, and assemble the
summary (wall-clock fields omitted). -/
def analyze_files (env : BatchEnv) (file_paths : List String)
    (hasProgress : Bool) (cancel : Option (Nat → Bool)) :
    List (Nat × Event) × BatchAnalysisResult :=
  let (tr, results) := batchLoop env file_paths.length hasProgress cancel 0 file_paths
  let (s, f, k) := countResults results
  (tr, { total_files := file_paths.length, success_count := s,
         failure_count := f, skipped_count := k, results := results })

/-! ## LLM client (`api_client.py`, `analyze_code` lines 196–234,
`_stream_response` lines 236–289, `_get_response` lines 291–342)

The transport behaviour of call number `k` (counting the underlying
requests actually issued) is `trans k`: either the finite chunk sequence
the backend delivers, or an error raised at some point up to the end of
the stream (carrying `str(e)`). `_get_response` returns the complete
text, modelled as the concatenation of the same chunks. -/

/-- What `analyze_code` hands back to its caller. -/
inductive AnalyzeResult where
  /-- A generator object: `_stream_response(prompt)` was *called* inside
  the `try`, which in Python only constructs the generator; its body (and
  hence the transport) runs when the caller iterates. `k` is the
  transport call the drain will issue. -/
  | streamGen (k : Nat)
  /-- The complete response text (non-streaming path). -/
  | text (s : String)
  /-- The `APIConnectionError` raised after the final failed attempt. -/
  | raised (msg : String)
  /-- The loop in `analyze_code` ran zero iterations (`max_retries = 0`),
  so the Python function falls off the loop and returns `None`. -/
  | noneResult
deriving DecidableEq, Repr

/-- The `APIConnectionError` message of line 234. -/
def connFailMsg (maxRetries : Nat) (lastError : String) : String :=
  "Failed to get LLM response after " ++ toString maxRetries ++ " attempts: " ++ lastError

/-- The retry loop of `analyze_code` (lines 217–234) in non-streaming
mode, where the `try` body actually issues transport call `a`
(`_get_response`). Returns the backoff waits performed (in seconds), the
number of transport calls issued, and the outcome. `fuel` is the number
of loop iterations remaining (`max_retries - a`). -/
def retryFrom (trans : Nat → Except String (List String)) (maxRetries : Nat) :
    Nat → Nat → List Nat × Nat × AnalyzeResult
  | _, 0 => ([], 0, .noneResult)
  | a, fuel + 1 =>
    match trans a with
    | .ok chunks => ([], 1, .text (String.join chunks))
    | .error e =>
      if a < maxRetries - 1 then
        let res := retryFrom trans maxRetries (a + 1) fuel
        (2 ^ a :: res.1, res.2.1 + 1, res.2.2)
      else ([], 1, .raised (connFailMsg maxRetries e))

/-- The function `analyze_code` (lines 196–234). In streaming mode the first loop
iteration executes `return self._stream_response(prompt)`: constructing
the generator raises nothing, so the loop returns it at attempt 0 with
zero transport calls and zero waits. In non-streaming mode the loop
drives the transport with backoff. -/
def analyze_code (trans : Nat → Except String (List String))
    (stream : Bool) (max_retries : Nat) : List Nat × Nat × AnalyzeResult :=
  if stream then
    if max_retries = 0 then ([], 0, .noneResult) else ([], 0, .streamGen 0)
  else retryFrom trans max_retries 0 max_retries

/-- The caller-side drain of what `analyze_code` returned: iterating the
generator runs `_stream_response`'s body, so a transport error raised at
any point of the stream propagates to the iterating caller as-is. -/
def drainResult (trans : Nat → Except String (List String)) :
    AnalyzeResult → Except String String
  | .streamGen k =>
    match trans k with
    | .ok chunks => .ok (String.join chunks)
    | .error e => .error e
  | .text s => .ok s
  | .raised m => .error m
  | .noneResult => .error "TypeError: NoneType object is not iterable"

/-! ## Derived observations -/

/-- Whether an event is an invocation of the LLM client. -/
def isClientCall : Event → Bool
  | .clientCall => true
  | _ => false

/-- Number of LLM-client invocations recorded in a trace. -/
def clientCallCount (evts : List Event) : Nat := evts.countP isClientCall

/-- Whether a transport call outcome is an error. -/
def transErr : Except String (List String) → Bool
  | .error _ => true
  | .ok _ => false

/-! ## Concrete stub environments (used to instantiate the theorems) -/

/-- A stub pipeline whose three collaborator stages always succeed. -/
def behAllOk : Nat → AttemptBehavior :=
  fun _ => ⟨.ok "PROMPT", .ok "IMPROVED", .ok "REPORT"⟩

/-- A stub pipeline whose client stage always raises `APIClientError`. -/
def behApiFail : Nat → AttemptBehavior :=
  fun _ => ⟨.ok "PROMPT", .raiseApi "TIMEOUT", .ok "REPORT"⟩

/-- A stub pipeline whose client stage always raises an unexpected
(non-`APIClientError`) exception with the same message text. -/
def behOtherFail : Nat → AttemptBehavior :=
  fun _ => ⟨.ok "PROMPT", .raiseOther "TIMEOUT", .ok "REPORT"⟩

/-- A stub client that always raises an `APIClientError` whose text
happens to contain the skip marker substring. -/
def behSkipTextFail : Nat → AttemptBehavior :=
  fun _ => ⟨.ok "PROMPT", .raiseApi "원격 서버가 요청을 스킵 처리함", .ok "REPORT"⟩

/-- A batch environment where every file reads successfully and every
attempt succeeds. -/
def envAllOk : BatchEnv := ⟨fun _ => .ok "public class A", fun _ => behAllOk⟩

/-- A batch environment whose only file reads successfully but whose
client always fails with a message containing the skip marker. -/
def envSkipText : BatchEnv := ⟨fun _ => .ok "public class A", fun _ => behSkipTextFail⟩

/-- A transport that fails on its first two calls and then succeeds. -/
def transFailTwice : Nat → Except String (List String) :=
  fun k => if k < 2 then .error ("boom " ++ toString k) else .ok ["IMP", "ROVED"]

/-- A transport whose first call fails mid-stream and whose later calls
succeed: the behaviour under which a working retry policy would recover. -/
def transFirstDrainFails : Nat → Except String (List String) :=
  fun k => if k = 0 then .error "connection reset by peer" else .ok ["IMPROVED"]

/-! ## Helper lemmas -/

theorem listContains_append_right (sub l₁ l₂ : List Char)
    (h : listContains sub l₂ = true) : listContains sub (l₁ ++ l₂) = true := by
  induction l₁ with
  | nil => simpa using h
  | cons a t ih =>
    simp only [List.cons_append, listContains, Bool.or_eq_true]
    exact Or.inr ih

theorem strContains_append_right (x y sub : String)
    (h : strContains y sub = true) : strContains (x ++ y) sub = true := by
  unfold strContains at *
  rw [String.data_append]
  exact listContains_append_right _ _ _ h

theorem string_append_ne_empty_left (x y : String) (hx : x ≠ "") : x ++ y ≠ "" := by
  intro hxy
  apply hx
  have hdata : x.data ++ y.data = [] := by
    have := congrArg String.data hxy
    rwa [String.data_append] at this
  have : x.data = [] := (List.append_eq_nil.mp hdata).1
  cases x
  simp_all

theorem exhaustedMsg_ne_empty (m : String) : exhaustedMsg m ≠ "" := by
  unfold exhaustedMsg
  apply string_append_ne_empty_left
  apply string_append_ne_empty_left
  decide

/-- If the `try` block of an attempt completed successfully, the client
stage returned exactly the text recorded as improved code. -/
theorem runAttempt_ok_client (b : AttemptBehavior) (ev : List Event)
    (improved report : String)
    (h : runAttempt b = (ev, .ok improved report)) :
    b.clientStage = .ok improved := by
  unfold runAttempt at h
  cases hp : b.promptStage with
  | raiseApi m => rw [hp] at h; simp at h
  | raiseOther m => rw [hp] at h; simp at h
  | ok p =>
    rw [hp] at h
    cases hc : b.clientStage with
    | raiseApi m => rw [hc] at h; simp at h
    | raiseOther m => rw [hc] at h; simp at h
    | ok t =>
      rw [hc] at h
      cases hr : b.reportStage with
      | raiseApi m => rw [hr] at h; simp at h
      | raiseOther m => rw [hr] at h; simp at h
      | ok rep =>
        rw [hr] at h
        simp only [Prod.mk.injEq, TryResult.ok.injEq] at h
        rw [h.2.1]

/-- The retry loop only ever produces a successful result with an empty
error message and an improved text that some attempt's client stage
actually returned, or a failed result carrying the retry-exhaustion
message. -/
theorem retryLoop_spec (beh : Nat → AttemptBehavior) (fp fn code : String) :
    ∀ (attempts : List Nat) (rc : Nat) (le : String),
      ((retryLoop beh fp fn code attempts rc le).2.success = true →
        (retryLoop beh fp fn code attempts rc le).2.error_message = "" ∧
        ∃ k, (beh k).clientStage =
          .ok (retryLoop beh fp fn code attempts rc le).2.improved_code) ∧
      ((retryLoop beh fp fn code attempts rc le).2.success = false →
        ∃ m, (retryLoop beh fp fn code attempts rc le).2.error_message = exhaustedMsg m) := by
  intro attempts
  induction attempts with
  | nil =>
    intro rc le
    constructor
    · intro hs; simp [retryLoop] at hs
    · intro _; exact ⟨le, rfl⟩
  | cons a rest ih =>
    intro rc le
    rcases hr : runAttempt (beh a) with ⟨ev, tr⟩
    cases tr with
    | ok improved report =>
      have hres : retryLoop beh fp fn code (a :: rest) rc le =
          (ev, { file_path := fp, file_name := fn, success := true,
                 original_code := code, improved_code := improved,
                 report_markdown := report, retry_count := rc }) := by
        simp [retryLoop, hr]
      rw [hres]
      constructor
      · intro _
        exact ⟨rfl, a, runAttempt_ok_client (beh a) ev improved report hr⟩
      · intro hs; simp at hs
    | exApi m =>
      have hres : (retryLoop beh fp fn code (a :: rest) rc le).2 =
          (retryLoop beh fp fn code rest (rc + 1) m).2 := by
        simp [retryLoop, hr]
      rw [hres]
      exact ih (rc + 1) m
    | exOther m =>
      have hres : (retryLoop beh fp fn code (a :: rest) rc le).2 =
          (retryLoop beh fp fn code rest (rc + 1) m).2 := by
        simp [retryLoop, hr]
      rw [hres]
      exact ih (rc + 1) m

/-- Every appended result is tallied in exactly one of the three counts. -/
theorem countResults_sum (rs : List FileAnalysisResult) :
    (countResults rs).1 + (countResults rs).2.1 + (countResults rs).2.2 = rs.length := by
  induction rs with
  | nil => rfl
  | cons r rest ih =>
    rcases hc : countResults rest with ⟨s, f, k⟩
    rw [hc] at ih
    dsimp only at ih
    by_cases hs : r.success
    · simp [countResults, hc, hs]; omega
    · by_cases hk : (!(r.error_message == "") && strContains r.error_message skipMarker) = true
      · simp [countResults, hc, hs, hk]; omega
      · simp [countResults, hc, hs, hk]; omega

/-- The skipped and failed tallies are exactly the counts of
non-successful results whose error message does / does not contain the
skip marker (the emptiness guard of line 130 is redundant because the
marker itself is non-empty). -/
theorem countResults_classification (rs : List FileAnalysisResult) :
    (countResults rs).2.2 =
      rs.countP (fun r => !r.success && strContains r.error_message skipMarker) ∧
    (countResults rs).2.1 =
      rs.countP (fun r => !r.success && !strContains r.error_message skipMarker) := by
  induction rs with
  | nil => exact ⟨rfl, rfl⟩
  | cons r rest ih =>
    rcases hc : countResults rest with ⟨s, f, k⟩
    rw [hc] at ih
    dsimp only at ih
    by_cases hs : r.success
    · simp [countResults, hc, hs, List.countP_cons, ih.1, ih.2]
    · by_cases he : r.error_message = ""
      · have hcont : strContains "" skipMarker = false := by decide
        simp [countResults, hc, hs, he, hcont, List.countP_cons, ih.1, ih.2]
      · by_cases hk : strContains r.error_message skipMarker
        · simp [countResults, hc, hs, he, hk, List.countP_cons, ih.1, ih.2]
        · simp [countResults, hc, hs, he, hk, List.countP_cons, ih.1, ih.2]

/-- The appended results do not depend on whether a progress callback is
supplied, nor on whether cancellation is checked through an absent
callback or one that always answers `false`. -/
theorem batchLoop_callbacks_snd (env : BatchEnv) (total : Nat) (hp hp' : Bool) :
    ∀ (i : Nat) (paths : List String),
      (batchLoop env total hp none i paths).2 =
      (batchLoop env total hp' (some fun _ => false) i paths).2 := by
  intro i paths
  induction paths generalizing i with
  | nil => rfl
  | cons p rest ih =>
    rcases ha : analyzeSingleFile (env.read p) (env.beh p) p (pathName p) with ⟨ev, r⟩
    rcases h1 : batchLoop env total hp none (i + 1) rest with ⟨tr1, rs1⟩
    rcases h2 : batchLoop env total hp' (some fun _ => false) (i + 1) rest with ⟨tr2, rs2⟩
    have hrs : rs1 = rs2 := by
      have := ih (i + 1)
      rw [h1, h2] at this
      exact this
    simp [batchLoop, cancelCheck, ha, h1, h2, hrs]

/-- If the cancellation callback answers `false` at the first `m` item
boundaries starting from index `i` and `true` at boundary `i + m`, the
loop appends exactly the single-file results of the first `m` paths, in
order, and every recorded event (progress update, collaborator call,
sleep) belongs to an item of index below `i + m`. -/
theorem batchLoop_cancelled (env : BatchEnv) (total : Nat) (hp : Bool) (c : Nat → Bool) :
    ∀ (m i : Nat) (paths : List String),
      (∀ j, j < m → c (i + j) = false) → c (i + m) = true → m ≤ paths.length →
      (batchLoop env total hp (some c) i paths).2 =
        (paths.take m).map
          (fun p => (analyzeSingleFile (env.read p) (env.beh p) p (pathName p)).2) ∧
      ∀ x ∈ (batchLoop env total hp (some c) i paths).1, i ≤ x.1 ∧ x.1 < i + m := by
  intro m
  induction m with
  | zero =>
    intro i paths _ hm _
    have hci : c i = true := by simpa using hm
    cases paths with
    | nil => simp [batchLoop]
    | cons p rest => simp [batchLoop, cancelCheck, hci]
  | succ k ih =>
    intro i paths h0 hm hlen
    cases paths with
    | nil => simp at hlen
    | cons p rest =>
      have hci : c i = false := by simpa using h0 0 (Nat.succ_pos k)
      rcases ha : analyzeSingleFile (env.read p) (env.beh p) p (pathName p) with ⟨ev, r⟩
      rcases hb : batchLoop env total hp (some c) (i + 1) rest with ⟨tr, rs⟩
      have ih0 : ∀ j, j < k → c (i + 1 + j) = false := by
        intro j hj
        have heq : i + 1 + j = i + (j + 1) := by omega
        rw [heq]
        exact h0 (j + 1) (by omega)
      have ihm : c (i + 1 + k) = true := by
        have heq : i + 1 + k = i + (k + 1) := by omega
        rw [heq]
        exact hm
      have ihs := ih (i + 1) rest ih0 ihm (by simpa using hlen)
      rw [hb] at ihs
      dsimp only at ihs
      constructor
      · have hres : (batchLoop env total hp (some c) i (p :: rest)).2 = r :: rs := by
          simp [batchLoop, cancelCheck, hci, ha, hb]
        have hr : r = (analyzeSingleFile (env.read p) (env.beh p) p (pathName p)).2 := by
          rw [ha]
        rw [hres, List.take_succ_cons, List.map_cons, ihs.1, hr]
      · intro x hx
        have htr : (batchLoop env total hp (some c) i (p :: rest)).1 =
            (if hp then [(i, Event.progressUpdate total (pathName p))] else []) ++
              ev.map (fun e => (i, e)) ++ tr := by
          simp [batchLoop, cancelCheck, hci, ha, hb]
        rw [htr] at hx
        simp only [List.mem_append] at hx
        rcases hx with (hx | hx) | hx
        · rcases hhp : hp with _ | _ <;> rw [hhp] at hx <;> simp at hx
          · rcases hx with ⟨hx1, _⟩
            omega
        · simp only [List.mem_map] at hx
          rcases hx with ⟨e, _, rfl⟩
          constructor <;> omega
        · have := ihs.2 x hx
          constructor <;> omega

/-- One retry-loop step: the transport call succeeds. -/
theorem retryFrom_ok_step (trans : Nat → Except String (List String))
    (maxR a fuel : Nat) (chunks : List String) (htrans : trans a = .ok chunks) :
    retryFrom trans maxR a (fuel + 1) = ([], 1, .text (String.join chunks)) := by
  simp [retryFrom, htrans]

/-- One retry-loop step: the transport call fails with attempts left, so
the loop waits `2^a` seconds and continues. -/
theorem retryFrom_err_cont_step (trans : Nat → Except String (List String))
    (maxR a fuel : Nat) (e : String) (htrans : trans a = .error e)
    (hcond : a < maxR - 1) :
    retryFrom trans maxR a (fuel + 1) =
      (2 ^ a :: (retryFrom trans maxR (a + 1) fuel).1,
        (retryFrom trans maxR (a + 1) fuel).2.1 + 1,
        (retryFrom trans maxR (a + 1) fuel).2.2) := by
  simp [retryFrom, htrans, hcond]

/-- One retry-loop step: the transport call fails on the final attempt,
so the loop raises the connection-failure error. -/
theorem retryFrom_err_last_step (trans : Nat → Except String (List String))
    (maxR a fuel : Nat) (e : String) (htrans : trans a = .error e)
    (hcond : ¬a < maxR - 1) :
    retryFrom trans maxR a (fuel + 1) = ([], 1, .raised (connFailMsg maxR e)) := by
  simp [retryFrom, htrans, hcond]

/-- When every remaining transport call fails, the retry loop performs a
`2^attempt`-second wait after each non-final attempt, issues exactly one
transport call per remaining iteration, and finally raises the
connection-failure error wrapping the last underlying error. -/
theorem retryFrom_all_fail (trans : Nat → Except String (List String))
    (maxR : Nat) (elast : String) :
    ∀ (fuel a : Nat), a + fuel = maxR → 1 ≤ fuel →
      (∀ k, a ≤ k → k < maxR → transErr (trans k) = true) →
      trans (maxR - 1) = .error elast →
      retryFrom trans maxR a fuel =
        ((List.range' a (fuel - 1)).map (2 ^ ·), fuel, .raised (connFailMsg maxR elast)) := by
  intro fuel
  induction fuel with
  | zero =>
    intro a _ h1
    exact absurd h1 (by omega)
  | succ f ihf =>
    intro a ha _ herr hlast
    by_cases hf : f = 0
    · subst hf
      have haa : a = maxR - 1 := by omega
      have htrans : trans a = .error elast := by rw [haa]; exact hlast
      have hcond : ¬a < maxR - 1 := by omega
      rw [retryFrom_err_last_step trans maxR a 0 elast htrans hcond]
      simp [List.range']
    · obtain ⟨g, rfl⟩ : ∃ g, f = g + 1 := ⟨f - 1, by omega⟩
      have hcond : a < maxR - 1 := by omega
      have herr_a := herr a (le_refl a) (by omega)
      rcases htrans : trans a with e | chunks
      · have hrec := ihf (a + 1) (by omega) (by omega)
          (fun k hk hk2 => herr k (by omega) hk2) hlast
        rw [retryFrom_err_cont_step trans maxR a (g + 1) e htrans hcond, hrec]
        simp [List.range'_succ]
      · rw [htrans] at herr_a
        simp [transErr] at herr_a

/-- When the first `j` transport calls fail and call `j` succeeds, the
retry loop waits `2^0, …, 2^(j-1)` seconds, issues exactly `j + 1`
transport calls, and returns the joined chunk text. -/
theorem retryFrom_succeeds_at (trans : Nat → Except String (List String)) (maxR : Nat) :
    ∀ (fuel a j : Nat) (chunks : List String), a + fuel = maxR → j < fuel →
      (∀ i, i < j → transErr (trans (a + i)) = true) →
      trans (a + j) = .ok chunks →
      retryFrom trans maxR a fuel =
        ((List.range' a j).map (2 ^ ·), j + 1, .text (String.join chunks)) := by
  intro fuel
  induction fuel with
  | zero =>
    intro a j chunks _ hj
    exact absurd hj (by omega)
  | succ f ihf =>
    intro a j chunks ha hj hpre hok
    cases j with
    | zero =>
      rw [Nat.add_zero] at hok
      rw [retryFrom_ok_step trans maxR a f chunks hok]
      simp [List.range']
    | succ jj =>
      have h0 : transErr (trans a) = true := by simpa using hpre 0 (by omega)
      rcases htrans : trans a with e | cs
      · have hcond : a < maxR - 1 := by omega
        rcases hff : f with _ | g
        · omega
        rw [← hff]
        have hrec := ihf (a + 1) jj chunks (by omega) (by omega)
          (fun i hi => by
            have h := hpre (i + 1) (by omega)
            have heq : a + 1 + i = a + (i + 1) := by omega
            rw [heq]
            exact h)
          (by
            have heq : a + 1 + jj = a + (jj + 1) := by omega
            rw [heq]
            exact hok)
        rw [retryFrom_err_cont_step trans maxR a f e htrans hcond, hrec]
        simp [List.range'_succ]
      · rw [htrans] at h0
        simp [transErr] at h0

/-- Unfolding of `analyze_files` into its loop and tally. -/
theorem analyze_files_eq (env : BatchEnv) (paths : List String) (hp : Bool)
    (cancel : Option (Nat → Bool)) :
    analyze_files env paths hp cancel =
      ((batchLoop env paths.length hp cancel 0 paths).1,
        { total_files := paths.length,
          success_count := (countResults (batchLoop env paths.length hp cancel 0 paths).2).1,
          failure_count := (countResults (batchLoop env paths.length hp cancel 0 paths).2).2.1,
          skipped_count := (countResults (batchLoop env paths.length hp cancel 0 paths).2).2.2,
          results := (batchLoop env paths.length hp cancel 0 paths).2 }) := by
  rcases hb : batchLoop env paths.length hp cancel 0 paths with ⟨tr, rs⟩
  rcases hc : countResults rs with ⟨s, f, k⟩
  simp [analyze_files, hb, hc]

/-! ## Claim theorems -/

/-- C5: for every input list and every behaviour of the callbacks and
the per-file environment (including early cancellation), the returned
summary satisfies
`success_count + failure_count + skipped_count = results.length`:
every appended per-item result is counted in exactly one tally. -/
theorem C5_tally_partition (env : BatchEnv) (paths : List String)
    (hasProgress : Bool) (cancel : Option (Nat → Bool)) :
    (analyze_files env paths hasProgress cancel).2.success_count +
      (analyze_files env paths hasProgress cancel).2.failure_count +
      (analyze_files env paths hasProgress cancel).2.skipped_count =
    (analyze_files env paths hasProgress cancel).2.results.length := by
  rw [analyze_files_eq]
  exact countResults_sum (batchLoop env paths.length hasProgress cancel 0 paths).2

/-- C9: running the batch with no progress callback and no cancellation
callback yields exactly the same summary (same results, counts and
ordering) as running it with a progress callback and a cancellation
callback that always answers `false`: the callbacks are purely optional
instrumentation with no effect on any other outcome. -/
theorem C9_callbacks_noninterference (env : BatchEnv) (paths : List String) :
    (analyze_files env paths false none).2 =
      (analyze_files env paths true (some fun _ => false)).2 := by
  rw [analyze_files_eq, analyze_files_eq]
  rw [batchLoop_callbacks_snd env paths.length false true 0 paths]

/-- C6: cancellation is checked once at each item boundary, before the
progress notification and before any processing; once the callback
answers `true` at boundary `m`, the results are exactly the single-file
results of the first `m` paths in input order, and every recorded event
(progress update, prompt build, client call, report build, sleep)
belongs to an item of index below `m` — no callback invocation and no
collaborator call ever happens for item `m` or any later item. -/
theorem C6_cancellation_boundary (env : BatchEnv) (paths : List String)
    (hasProgress : Bool) (c : Nat → Bool) (m : Nat)
    (h0 : ∀ j, j < m → c j = false) (hm : c m = true) (hlen : m ≤ paths.length) :
    (analyze_files env paths hasProgress (some c)).2.results =
      (paths.take m).map
        (fun p => (analyzeSingleFile (env.read p) (env.beh p) p (pathName p)).2) ∧
    ∀ x ∈ (analyze_files env paths hasProgress (some c)).1, x.1 < m := by
  have h := batchLoop_cancelled env paths.length hasProgress c m 0
    paths (fun j hj => by simpa using h0 j hj) (by simpa using hm) hlen
  rw [analyze_files_eq]
  exact ⟨h.1, fun x hx => by have := (h.2 x hx).2; omega⟩

/-- Witness for C6: five items with cancellation answering `true` from
the third boundary check onward — the summary holds the results of items
1–2 only and no event concerns item 3 or later. -/
theorem C6_cancellation_boundary_witness :
    (analyze_files envAllOk ["1.cs", "2.cs", "3.cs", "4.cs", "5.cs"] true
        (some fun i => decide (2 ≤ i))).2.results =
      ((["1.cs", "2.cs", "3.cs", "4.cs", "5.cs"].take 2).map
        (fun p => (analyzeSingleFile (envAllOk.read p) (envAllOk.beh p) p (pathName p)).2)) ∧
    ∀ x ∈ (analyze_files envAllOk ["1.cs", "2.cs", "3.cs", "4.cs", "5.cs"] true
        (some fun i => decide (2 ≤ i))).1, x.1 < 2 :=
  C6_cancellation_boundary envAllOk ["1.cs", "2.cs", "3.cs", "4.cs", "5.cs"] true
    (fun i => decide (2 ≤ i)) 2 (by decide) (by decide) (by decide)

/-- C2 (counterexample): the claim "`succeeded = true` implies
`improvedText ≠ \"\"`" fails on the code: a client stream that yields no
text produces a successful result whose improved code is empty — the
code never checks the drained text for emptiness. -/
theorem C2_counterexample :
    (analyzeSingleFile (.ok "public class A")
      (fun _ => ⟨.ok "PROMPT", .ok "", .ok "REPORT"⟩) "A.cs" "A.cs").2.success = true ∧
    (analyzeSingleFile (.ok "public class A")
      (fun _ => ⟨.ok "PROMPT", .ok "", .ok "REPORT"⟩) "A.cs" "A.cs").2.improved_code = "" := by
  decide

/-- C2 (amended): for every result the Batch Analyzer produces:
if `success` is true then `error_message` is empty and `improved_code`
is exactly the text some attempt's client stage returned (which may be
empty when the stream yields nothing); if `success` is false then
`error_message` is non-empty. -/
theorem C2_result_invariant (read : ReadOutcome) (beh : Nat → AttemptBehavior)
    (fp fn : String) :
    ((analyzeSingleFile read beh fp fn).2.success = true →
      (analyzeSingleFile read beh fp fn).2.error_message = "" ∧
      ∃ k, (beh k).clientStage =
        .ok (analyzeSingleFile read beh fp fn).2.improved_code) ∧
    ((analyzeSingleFile read beh fp fn).2.success = false →
      (analyzeSingleFile read beh fp fn).2.error_message ≠ "") := by
  cases read with
  | ok content =>
    by_cases hc : pyStrip content = ""
    · constructor
      · intro hs
        simp [analyzeSingleFile, hc] at hs
      · intro _
        simp only [analyzeSingleFile, hc, if_pos]
        decide
    · have heq : analyzeSingleFile (.ok content) beh fp fn =
          retryLoop beh fp fn (pyStrip content) (List.range MAX_RETRIES) 0 "" := by
        simp [analyzeSingleFile, hc]
      rw [heq]
      have h := retryLoop_spec beh fp fn (pyStrip content) (List.range MAX_RETRIES) 0 ""
      refine ⟨h.1, fun hs => ?_⟩
      rcases h.2 hs with ⟨m, hm⟩
      rw [hm]
      exact exhaustedMsg_ne_empty m
  | unicodeError =>
    constructor
    · intro hs
      simp [analyzeSingleFile] at hs
    · intro _
      show ("UTF-8 인코딩 오류 (스킵)" : String) ≠ ""
      decide
  | otherError msg =>
    constructor
    · intro hs
      simp [analyzeSingleFile] at hs
    · intro _
      show "파일 읽기 실패: " ++ msg ++ " (스킵)" ≠ ""
      exact string_append_ne_empty_left ("파일 읽기 실패: " ++ msg) " (스킵)"
        (string_append_ne_empty_left "파일 읽기 실패: " msg (by decide))

/-- Witness for C2 (amended), at a successful run and at a failed read. -/
theorem C2_result_invariant_witness :
    ((analyzeSingleFile (.ok "public class A") behAllOk "A.cs" "A.cs").2.error_message = "" ∧
      ∃ k, (behAllOk k).clientStage =
        .ok (analyzeSingleFile (.ok "public class A") behAllOk "A.cs" "A.cs").2.improved_code) ∧
    (analyzeSingleFile .unicodeError behAllOk "B.cs" "B.cs").2.error_message ≠ "" :=
  ⟨(C2_result_invariant (.ok "public class A") behAllOk "A.cs" "A.cs").1 (by decide),
   (C2_result_invariant .unicodeError behAllOk "B.cs" "B.cs").2 (by decide)⟩

/-- C3 (counterexample): an unexpected (non-`APIClientError`) failure
and an `APIClientError` failure with the same underlying text produce
*identical* recorded error messages — the recorded message prefix is the
same `"LLM 분석 실패 (3회 재시도): "` in both cases, so it does not
distinguish the two error classes (only the console print does). -/
theorem C3_counterexample :
    (analyzeSingleFile (.ok "public class A") behOtherFail "A.cs" "A.cs").2.success = false ∧
    (analyzeSingleFile (.ok "public class A") behOtherFail "A.cs" "A.cs").2.error_message =
      (analyzeSingleFile (.ok "public class A") behApiFail "A.cs" "A.cs").2.error_message := by
  decide

/-- C3 (amended): an unexpected error in the collaborator pipeline is
caught at the same per-attempt retry granularity as an `APIClientError`
(the item still yields a recorded result after all three attempts, so
the run continues), but the recorded error message is built with the
same retry-exhaustion prefix in both cases, wrapping the last underlying
error text; the distinguishing marker exists only in console output. -/
theorem C3_unexpected_error_handling (fp fn content : String)
    (hc : ¬pyStrip content = "") (p rep : String) (m : Nat → String) :
    (analyzeSingleFile (.ok content)
        (fun k => ⟨.ok p, .raiseOther (m k), .ok rep⟩) fp fn).2.success = false ∧
    (analyzeSingleFile (.ok content)
        (fun k => ⟨.ok p, .raiseOther (m k), .ok rep⟩) fp fn).2.retry_count = 3 ∧
    (analyzeSingleFile (.ok content)
        (fun k => ⟨.ok p, .raiseOther (m k), .ok rep⟩) fp fn).2.error_message =
      exhaustedMsg (m 2) ∧
    (analyzeSingleFile (.ok content)
        (fun k => ⟨.ok p, .raiseOther (m k), .ok rep⟩) fp fn).2.error_message =
      (analyzeSingleFile (.ok content)
        (fun k => ⟨.ok p, .raiseApi (m k), .ok rep⟩) fp fn).2.error_message := by
  have hr : List.range MAX_RETRIES = [0, 1, 2] := rfl
  simp [analyzeSingleFile, hc, hr, retryLoop, runAttempt]

/-- Witness for C3 (amended) at a concrete non-empty file. -/
theorem C3_unexpected_error_handling_witness :
    (analyzeSingleFile (.ok "public class A")
        (fun k => ⟨.ok "PROMPT", .raiseOther ((fun _ => "BUG") k), .ok "REPORT"⟩)
        "A.cs" "A.cs").2.success = false ∧
    (analyzeSingleFile (.ok "public class A")
        (fun k => ⟨.ok "PROMPT", .raiseOther ((fun _ => "BUG") k), .ok "REPORT"⟩)
        "A.cs" "A.cs").2.retry_count = 3 ∧
    (analyzeSingleFile (.ok "public class A")
        (fun k => ⟨.ok "PROMPT", .raiseOther ((fun _ => "BUG") k), .ok "REPORT"⟩)
        "A.cs" "A.cs").2.error_message = exhaustedMsg ((fun _ => "BUG") 2) ∧
    (analyzeSingleFile (.ok "public class A")
        (fun k => ⟨.ok "PROMPT", .raiseOther ((fun _ => "BUG") k), .ok "REPORT"⟩)
        "A.cs" "A.cs").2.error_message =
      (analyzeSingleFile (.ok "public class A")
        (fun k => ⟨.ok "PROMPT", .raiseApi ((fun _ => "BUG") k), .ok "REPORT"⟩)
        "A.cs" "A.cs").2.error_message :=
  C3_unexpected_error_handling "A.cs" "A.cs" "public class A" (by decide)
    "PROMPT" "REPORT" (fun _ => "BUG")

/-- C7: an item whose content is empty after trimming, or whose read
fails with a decode error or any other failure, immediately yields a
failed result whose message carries the skip marker, with
`retry_count = 0` and an empty event trace — the Prompt Builder and the
LLM client are never invoked and the retry loop is never entered. -/
theorem C7_load_errors_short_circuit (fp fn : String) (beh : Nat → AttemptBehavior) :
    (∀ content, pyStrip content = "" →
      analyzeSingleFile (.ok content) beh fp fn =
        ([], { file_path := fp, file_name := fn, success := false,
               error_message := "빈 파일 (스킵)" })) ∧
    analyzeSingleFile .unicodeError beh fp fn =
      ([], { file_path := fp, file_name := fn, success := false,
             error_message := "UTF-8 인코딩 오류 (스킵)" }) ∧
    (∀ msg, analyzeSingleFile (.otherError msg) beh fp fn =
      ([], { file_path := fp, file_name := fn, success := false,
             error_message := "파일 읽기 실패: " ++ msg ++ " (스킵)" })) ∧
    strContains "빈 파일 (스킵)" skipMarker = true ∧
    strContains "UTF-8 인코딩 오류 (스킵)" skipMarker = true ∧
    (∀ msg, strContains ("파일 읽기 실패: " ++ msg ++ " (스킵)") skipMarker = true) := by
  refine ⟨?_, rfl, fun msg => rfl, by decide, by decide, fun msg => ?_⟩
  · intro content hcon
    simp [analyzeSingleFile, hcon]
  · exact strContains_append_right ("파일 읽기 실패: " ++ msg) " (스킵)" skipMarker (by decide)

/-- Witness for C7 at a whitespace-only file. -/
theorem C7_load_errors_short_circuit_witness :
    analyzeSingleFile (.ok "  \n  ") behAllOk "E.cs" "E.cs" =
      ([], { file_path := "E.cs", file_name := "E.cs", success := false,
             error_message := "빈 파일 (스킵)" }) ∧
    strContains "빈 파일 (스킵)" skipMarker = true :=
  ⟨(C7_load_errors_short_circuit "E.cs" "E.cs" behAllOk).1 "  \n  " (by decide),
   (C7_load_errors_short_circuit "E.cs" "E.cs" behAllOk).2.2.2.1⟩

/-- C4: for a readable non-empty item, a client that raises
`APIClientError` on the first two attempts and succeeds on the third
yields a successful result with `retry_count = 2` after exactly three
client invocations; a client that fails on all attempts yields the
failed retry-exhaustion (non-skip) result with `retry_count = 3` after
exactly three client invocations. -/
theorem C4_retry_count_semantics (fp fn content : String) (hc : ¬pyStrip content = "")
    (behA behB : Nat → AttemptBehavior) (m : Nat → String) (t rep : String)
    (p : Nat → String)
    (hA0 : behA 0 = ⟨.ok (p 0), .raiseApi (m 0), .ok rep⟩)
    (hA1 : behA 1 = ⟨.ok (p 1), .raiseApi (m 1), .ok rep⟩)
    (hA2 : behA 2 = ⟨.ok (p 2), .ok t, .ok rep⟩)
    (hB : ∀ k, k < 3 → behB k = ⟨.ok (p k), .raiseApi (m k), .ok rep⟩) :
    ((analyzeSingleFile (.ok content) behA fp fn).2.success = true ∧
      (analyzeSingleFile (.ok content) behA fp fn).2.retry_count = 2 ∧
      (analyzeSingleFile (.ok content) behA fp fn).2.improved_code = t ∧
      clientCallCount (analyzeSingleFile (.ok content) behA fp fn).1 = 3) ∧
    ((analyzeSingleFile (.ok content) behB fp fn).2.success = false ∧
      (analyzeSingleFile (.ok content) behB fp fn).2.retry_count = 3 ∧
      (analyzeSingleFile (.ok content) behB fp fn).2.error_message = exhaustedMsg (m 2) ∧
      clientCallCount (analyzeSingleFile (.ok content) behB fp fn).1 = 3) := by
  have hr : List.range MAX_RETRIES = [0, 1, 2] := rfl
  have hB0 := hB 0 (by omega)
  have hB1 := hB 1 (by omega)
  have hB2 := hB 2 (by omega)
  constructor
  · simp [analyzeSingleFile, hc, hr, retryLoop, runAttempt, hA0, hA1, hA2,
      clientCallCount, isClientCall, List.countP_cons, List.countP_append]
  · simp [analyzeSingleFile, hc, hr, retryLoop, runAttempt, hB0, hB1, hB2,
      clientCallCount, isClientCall, List.countP_cons, List.countP_append]

/-- Witness for C4 at a concrete file and concrete stub clients. -/
theorem C4_retry_count_semantics_witness :
    ((analyzeSingleFile (.ok "public class A")
        (fun k => if k < 2 then ⟨.ok "PROMPT", .raiseApi "TIMEOUT", .ok "REPORT"⟩
          else ⟨.ok "PROMPT", .ok "IMPROVED", .ok "REPORT"⟩) "A.cs" "A.cs").2.success = true ∧
      (analyzeSingleFile (.ok "public class A")
        (fun k => if k < 2 then ⟨.ok "PROMPT", .raiseApi "TIMEOUT", .ok "REPORT"⟩
          else ⟨.ok "PROMPT", .ok "IMPROVED", .ok "REPORT"⟩) "A.cs" "A.cs").2.retry_count = 2 ∧
      (analyzeSingleFile (.ok "public class A")
        (fun k => if k < 2 then ⟨.ok "PROMPT", .raiseApi "TIMEOUT", .ok "REPORT"⟩
          else ⟨.ok "PROMPT", .ok "IMPROVED", .ok "REPORT"⟩) "A.cs" "A.cs").2.improved_code = "IMPROVED" ∧
      clientCallCount (analyzeSingleFile (.ok "public class A")
        (fun k => if k < 2 then ⟨.ok "PROMPT", .raiseApi "TIMEOUT", .ok "REPORT"⟩
          else ⟨.ok "PROMPT", .ok "IMPROVED", .ok "REPORT"⟩) "A.cs" "A.cs").1 = 3) ∧
    ((analyzeSingleFile (.ok "public class A") behApiFail "A.cs" "A.cs").2.success = false ∧
      (analyzeSingleFile (.ok "public class A") behApiFail "A.cs" "A.cs").2.retry_count = 3 ∧
      (analyzeSingleFile (.ok "public class A") behApiFail "A.cs" "A.cs").2.error_message =
        exhaustedMsg ((fun _ => "TIMEOUT") 2) ∧
      clientCallCount (analyzeSingleFile (.ok "public class A") behApiFail "A.cs" "A.cs").1 = 3) :=
  C4_retry_count_semantics "A.cs" "A.cs" "public class A" (by decide)
    (fun k => if k < 2 then ⟨.ok "PROMPT", .raiseApi "TIMEOUT", .ok "REPORT"⟩
      else ⟨.ok "PROMPT", .ok "IMPROVED", .ok "REPORT"⟩)
    behApiFail (fun _ => "TIMEOUT") "IMPROVED" "REPORT" (fun _ => "PROMPT")
    (by decide) (by decide) (by decide) (by decide)

/-- C8: in the client's retry loop with `max_retries = n` (exercised in
non-streaming mode, where the `try` body actually issues the transport
call), every transport error on 0-based attempt `k < n - 1` is followed
by a wait of exactly `2^k` seconds (so the waits are `1, 2, 4, …`), at
most `n` transport attempts are issued, and after the final failed
attempt the loop raises the connection-failure error wrapping the last
underlying error. -/
theorem C8_exponential_backoff (trans : Nat → Except String (List String))
    (n : Nat) (hn : 0 < n) :
    (∀ elast, (∀ k, k < n → transErr (trans k) = true) → trans (n - 1) = .error elast →
      analyze_code trans false n =
        ((List.range (n - 1)).map (2 ^ ·), n, .raised (connFailMsg n elast))) ∧
    (∀ j chunks, j < n → (∀ i, i < j → transErr (trans i) = true) →
      trans j = .ok chunks →
      analyze_code trans false n =
        ((List.range j).map (2 ^ ·), j + 1, .text (String.join chunks))) := by
  constructor
  · intro elast herr hlast
    have h := retryFrom_all_fail trans n elast n 0 (by omega) (by omega)
      (fun k _ hk2 => herr k hk2) hlast
    simp only [analyze_code, Bool.false_eq_true, if_false]
    rw [h, List.range_eq_range']
  · intro j chunks hj hpre hok
    have h := retryFrom_succeeds_at trans n n 0 j chunks (by omega) hj
      (fun i hi => by simpa using hpre i hi) (by simpa using hok)
    simp only [analyze_code, Bool.false_eq_true, if_false]
    rw [h, List.range_eq_range']

/-- Witness for C8: a transport failing twice then succeeding under
`max_retries = 3` waits 1 s then 2 s, issues 3 calls and returns the
joined text. -/
theorem C8_exponential_backoff_witness :
    analyze_code transFailTwice false 3 = ([1, 2], 3, .text "IMPROVED") := by
  have h := (C8_exponential_backoff transFailTwice 3 (by decide)).2 2 ["IMP", "ROVED"]
    (by decide)
    (fun i hi => by
      have : i = 0 ∨ i = 1 := by omega
      rcases this with rfl | rfl <;> decide)
    rfl
  rw [h]
  decide

/-- C1: with `stream=True` (the mode the Batch Analyzer uses), the
`return self._stream_response(prompt)` inside the retry loop's `try`
only *constructs* the generator, so the loop exits on attempt 0 having
issued no transport call and performed no wait; an error raised while
the caller drains the chunks propagates raw — it is neither wrapped in
the connection-failure error nor retried, even though the very same
transport recovers after one retry in the non-streaming path. This
contradicts the claim (and the function's own documented contract) that
the retry policy covers the full stream drain. -/
theorem C1_stream_retry_bypassed :
    analyze_code transFirstDrainFails true 3 = ([], 0, .streamGen 0) ∧
    drainResult transFirstDrainFails (.streamGen 0) = .error "connection reset by peer" ∧
    analyze_code transFirstDrainFails false 3 = ([1], 2, .text "IMPROVED") :=
  ⟨rfl, rfl, rfl⟩

/-- C10: the skip-versus-failure tally is decided after the fact purely
by substring matching on the recorded error message: a non-successful
result is counted as skipped exactly when its message contains `"스킵"`
and as failed exactly when it does not (the additional non-emptiness
guard is redundant since the marker is non-empty); consequently a
one-item batch whose client exhausts its retries with an error text
containing `"스킵"` is tallied as skipped, not failed, despite being a
retry-exhausted failure with `retry_count = 3`. -/
theorem C10_skip_tally_by_substring :
    (∀ rs : List FileAnalysisResult,
      (countResults rs).2.2 =
        rs.countP (fun r => !r.success && strContains r.error_message skipMarker) ∧
      (countResults rs).2.1 =
        rs.countP (fun r => !r.success && !strContains r.error_message skipMarker)) ∧
    ((analyze_files envSkipText ["A.cs"] false none).2.skipped_count = 1 ∧
      (analyze_files envSkipText ["A.cs"] false none).2.failure_count = 0 ∧
      (analyze_files envSkipText ["A.cs"] false none).2.results.map
        FileAnalysisResult.success = [false] ∧
      (analyze_files envSkipText ["A.cs"] false none).2.results.map
        FileAnalysisResult.retry_count = [3]) :=
  ⟨countResults_classification, by decide⟩

end CodeReviewer
